import Mathlib

/-!
Shallow embedding of the Firebolt source connector
(`airbyte-integrations/connectors/source-firebolt/source_firebolt/source.py`):
the `check`, `discover` and `read` entry points of `SourceFirebolt`, the
per-table discovery helper `get_table_stream`, and the query construction of
`read`.  Remote-store interaction (connections, cursors, query execution) is
embedded as explicit event traces or as functions from queries to results, so
that resource-safety and streaming claims become statements about the traces
the code produces.
-/

namespace Firebolt

/-- A raw cell value as fetched from the remote store. -/
inductive Value
  | intV (n : Int)
  | strV (s : String)
  | boolV (b : Bool)
  | nullV
deriving DecidableEq

/-- The closed enumeration of normalized types (spec section 3, NormalizedType). -/
inductive NormalizedType
  | integer
  | float
  | string
  | boolean
  | timestamp
  | date
  | binary
  | array
  | object
  | unknown
deriving DecidableEq

/-- A normalized schema fragment for one column: base type plus the nullability
flag folded in alongside it (the `["null", T]`-style union of the JSON schema). -/
structure SchemaFragment where
  base : NormalizedType
  nullable : Bool
deriving DecidableEq

/-- Modelled from the spec: `convert_type` (the Type Mapper, defined in
`utils.py`, which is not under `src/`).  Total, pure map from a native type tag
and a nullability flag to a normalized schema fragment; unrecognized tags map
to `unknown` rather than failing, and nullability is folded in as a flag, not a
separate branch of the enumeration. -/
def convert_type (c_type : String) (nullable : Bool) : SchemaFragment :=
  let base :=
    if c_type = "int" ∨ c_type = "integer" ∨ c_type = "bigint" then NormalizedType.integer
    else if c_type = "float" ∨ c_type = "double" then NormalizedType.float
    else if c_type = "text" ∨ c_type = "string" then NormalizedType.string
    else if c_type = "boolean" then NormalizedType.boolean
    else if c_type = "timestamp" ∨ c_type = "datetime" then NormalizedType.timestamp
    else if c_type = "date" then NormalizedType.date
    else if c_type = "bytea" then NormalizedType.binary
    else if c_type = "array" then NormalizedType.array
    else NormalizedType.unknown
  ⟨base, nullable⟩

/-- The sync modes the connector can advertise (`airbyte_cdk.models.SyncMode`). -/
inductive SyncMode
  | full_refresh
  | incremental
deriving DecidableEq

/-- `SUPPORTED_SYNC_MODES = [SyncMode.full_refresh]` (source.py line 25). -/
def SUPPORTED_SYNC_MODES : List SyncMode := [SyncMode.full_refresh]

/-- The `json_schema` of a stream: `{"type": "object", "properties": ...}` with
`properties` an insertion-ordered mapping from column name to schema fragment
(Python dicts preserve insertion order, so the mapping is an ordered
association list). -/
structure JsonSchema where
  type : String
  properties : List (String × SchemaFragment)
deriving DecidableEq

/-- `airbyte_cdk.models.AirbyteStream`: stream name, JSON schema, sync modes. -/
structure AirbyteStream where
  name : String
  json_schema : JsonSchema
  supported_sync_modes : List SyncMode
deriving DecidableEq

/-- One configured stream of a `ConfiguredAirbyteCatalog`; `read` only uses
`c_stream.stream`. -/
structure ConfiguredAirbyteStream where
  stream : AirbyteStream
deriving DecidableEq

/-- `airbyte_cdk.models.ConfiguredAirbyteCatalog`: the selection handed to `read`. -/
structure ConfiguredAirbyteCatalog where
  streams : List ConfiguredAirbyteStream
deriving DecidableEq

/-- `airbyte_cdk.models.Status`. -/
inductive Status
  | succeeded
  | failed
deriving DecidableEq

/-- `airbyte_cdk.models.AirbyteConnectionStatus`: status plus optional message. -/
structure AirbyteConnectionStatus where
  status : Status
  message : Option String
deriving DecidableEq

/-- `SourceFirebolt.check` (source.py lines 51-70).  The whole body —
`establish_connection`, opening a cursor and executing `SELECT 1` — sits inside
one `try`; the argument models the outcome of that body (`.ok ()` when the
connection and probe query succeed, `.error e` when any step raises with
message `e`).  On success it returns `SUCCEEDED`; on failure the `except`
clause returns `FAILED` with the message built by
`f"An exception occurred: {str(e)}"`. -/
def check (body : Except String Unit) : AirbyteConnectionStatus :=
  match body with
  | Except.ok _ => ⟨Status.succeeded, none⟩
  | Except.error e => ⟨Status.failed, some ("An exception occurred: " ++ e)⟩

/-- `'"{}"'.format(col)` (source.py line 137): wrap a column name in double
quotes. -/
def escape_column (col : String) : String := "\"" ++ col ++ "\""

/-- Python's `",".join` on a list of strings (source.py line 139). -/
def join_comma : List String → String
  | [] => ""
  | [s] => s
  | s :: t :: rest => s ++ "," ++ join_comma (t :: rest)

/-- The projection query built by `read` (source.py lines 137-139):
`"SELECT {columns} FROM {table}"` over the escaped column list. -/
def build_query (table_name : String) (columns : List String) : String :=
  "SELECT " ++ join_comma (columns.map escape_column) ++ " FROM " ++ table_name

lemma join_comma_mem_infix (c : String) :
    ∀ (cols : List String), c ∈ cols →
      ∃ p q, join_comma (cols.map escape_column) = p ++ escape_column c ++ q := by
  intro cols
  induction cols with
  | nil => intro h; cases h
  | cons a rest ih =>
    intro h
    cases rest with
    | nil =>
      rcases List.mem_singleton.mp h with rfl
      exact ⟨"", "", by simp [join_comma]⟩
    | cons b rest2 =>
      rcases List.mem_cons.mp h with rfl | hmem
      · exact ⟨"", "," ++ join_comma ((b :: rest2).map escape_column),
          by simp [join_comma, String.append_assoc]⟩
      · rcases ih hmem with ⟨p, q, hpq⟩
        refine ⟨escape_column a ++ "," ++ p, q, ?_⟩
        simp only [List.map_cons] at hpq
        simp [join_comma, hpq, String.append_assoc]

/-- C8: every column name of a `read` projection is wrapped in double quotes
inside the generated query: the quoted column occurs verbatim in the query
string built by `build_query`. -/
theorem c8_columns_quoted (table_name : String) (columns : List String) (c : String)
    (h : c ∈ columns) :
    ∃ p q, build_query table_name columns = p ++ ("\"" ++ c ++ "\"") ++ q := by
  rcases join_comma_mem_infix c columns h with ⟨p, q, hpq⟩
  refine ⟨"SELECT " ++ p, q ++ (" FROM " ++ table_name), ?_⟩
  simp [build_query, hpq, escape_column, String.append_assoc]

/-- C8 witness: the reserved-keyword-shaped column `id` of table `users` is
quoted in the concrete generated query. -/
theorem c8_witness :
    "id" ∈ ["id", "name"] ∧
      ∃ p q, build_query "users" ["id", "name"] = p ++ ("\"" ++ "id" ++ "\"") ++ q :=
  ⟨by decide, c8_columns_quoted "users" ["id", "name"] "id" (by decide)⟩

/-- C6: `check` never propagates a failure: for any failure message `e` it
returns status `FAILED` with a non-empty message containing the underlying
error text `e`, and on success it returns status `SUCCEEDED`. -/
theorem c6_check_structured (e : String) :
    check (Except.ok ()) = ⟨Status.succeeded, none⟩ ∧
    (check (Except.error e)).status = Status.failed ∧
    ∃ m, (check (Except.error e)).message = some m ∧ 0 < m.length ∧
      e.data <:+: m.data := by
  refine ⟨rfl, rfl, "An exception occurred: " ++ e, rfl, ?_, ?_⟩
  · rw [String.length_append]
    have h23 : 0 < "An exception occurred: ".length := by decide
    omega
  · show e.data <:+: ("An exception occurred: " ++ e).data
    rw [String.data_append]
    exact (List.suffix_append _ _).isInfix

/-- A record message as assembled by the Record Normalizer: provenance (table
name) plus the ordered column-to-value data mapping. -/
structure AirbyteRecordMessage where
  table : String
  data : List (String × Value)
deriving DecidableEq

/-- Modelled from the spec: `airbyte_message_from_data` (the Record Normalizer,
defined in `utils.py`, which is not under `src/`).  Converts a raw row, aligned
with the column list, into a record envelope carrying the table provenance;
yields no envelope (`none`) only when the row as a whole cannot be represented
(modelled as misalignment between row and column list) — it never drops single
columns from an otherwise-valid row. -/
def airbyte_message_from_data (result : List Value) (columns : List String)
    (table_name : String) : Option AirbyteRecordMessage :=
  if result.length = columns.length then
    some ⟨table_name, columns.zip result⟩
  else none

/-- One observable remote-store interaction of `SourceFirebolt.read`.  The
trace of these events embeds the `with establish_connection(...)` and
`with connection.cursor()` scopes, the per-table `execute` and `fetchall`
calls, and the yielded messages, in program order. -/
inductive Event
  | openConnection
  | closeConnection
  | openCursor
  | closeCursor
  | execute (query : String)
  | fetch (rows : List (List Value))
  | emit (message : AirbyteRecordMessage)
deriving DecidableEq

/-- `columns = list(table_properties.keys())` (source.py lines 133-134): the
selected column list of a configured stream, in schema order. -/
def columnsOf (c_stream : ConfiguredAirbyteStream) : List String :=
  (c_stream.stream.json_schema.properties).map Prod.fst

/-- The projection query `read` issues for one configured stream (source.py
lines 136-139). -/
def queryOf (c_stream : ConfiguredAirbyteStream) : String :=
  build_query c_stream.stream.name (columnsOf c_stream)

/-- The messages `read` yields for one configured stream: the normalizer is
applied to each fetched row in order; rows for which it yields no message are
skipped (source.py lines 143-146).  `db` maps a query string to the rows the
remote store returns for it. -/
def emitted_messages (db : String → List (List Value))
    (c_stream : ConfiguredAirbyteStream) : List AirbyteRecordMessage :=
  (db (queryOf c_stream)).filterMap
    (fun result => airbyte_message_from_data result (columnsOf c_stream) c_stream.stream.name)

/-- The event trace of the body of `read`'s per-stream loop (source.py lines
131-146): one `cursor.execute(query)`, one `cursor.fetchall()` returning the
entire result set at once, then the emitted messages. -/
def table_trace (db : String → List (List Value))
    (c_stream : ConfiguredAirbyteStream) : List Event :=
  Event.execute (queryOf c_stream) :: Event.fetch (db (queryOf c_stream)) ::
    (emitted_messages db c_stream).map Event.emit

/-- The full event trace of `SourceFirebolt.read` (source.py lines 101-147):
one connection and one cursor are opened (the `with connection.cursor()` scope
encloses the whole loop over `catalog.streams`), the per-stream bodies run in
selection order, and cursor and connection are closed at the end.  The `state`
argument embeds the `state` parameter of `read`; the source never reads it. -/
def read_trace (db : String → List (List Value)) (catalog : ConfiguredAirbyteCatalog)
    (_state : List (String × Value)) : List Event :=
  [Event.openConnection, Event.openCursor]
    ++ catalog.streams.flatMap (table_trace db)
    ++ [Event.closeCursor, Event.closeConnection]

def isOpenCursor : Event → Bool
  | Event.openCursor => true
  | _ => false

def isCloseCursor : Event → Bool
  | Event.closeCursor => true
  | _ => false

def isCursorEvent (e : Event) : Bool := isOpenCursor e || isCloseCursor e

/-- The number of rows an event pulls from the store at once (0 for non-fetch
events). -/
def fetchSize : Event → Nat
  | Event.fetch rows => rows.length
  | _ => 0

def fetchRowsOf : Event → Option (List (List Value))
  | Event.fetch rows => some rows
  | _ => none

def emitOf : Event → Option AirbyteRecordMessage
  | Event.emit m => some m
  | _ => none

/-- Checks that the cursor events of a trace are properly bracketed with at
most one cursor active at any point: `n` counts the currently open cursors; an
open is legal only when none is active, a close only when exactly one is. -/
def cursorNesting : List Event → Nat → Bool
  | [], _ => true
  | Event.openCursor :: tr, n => (n == 0) && cursorNesting tr (n + 1)
  | Event.closeCursor :: tr, n => (n == 1) && cursorNesting tr (n - 1)
  | _ :: tr, n => cursorNesting tr n

def exFragment : SchemaFragment := ⟨NormalizedType.integer, false⟩

def exStream (table_name : String) : ConfiguredAirbyteStream :=
  ⟨⟨table_name, ⟨"object", [("id", exFragment)]⟩, SUPPORTED_SYNC_MODES⟩⟩

def exCatalogUsers : ConfiguredAirbyteCatalog := ⟨[exStream "users"]⟩

def exCatalogTwoTables : ConfiguredAirbyteCatalog := ⟨[exStream "users", exStream "orders"]⟩

/-- A remote store whose every query returns two single-column rows. -/
def exDbTwoRows : String → List (List Value) := fun _ => [[Value.intV 1], [Value.intV 2]]

lemma all_map_emit_no_cursor (msgs : List AirbyteRecordMessage) :
    ((msgs.map Event.emit).all (fun e => !(isCursorEvent e))) = true := by
  induction msgs with
  | nil => rfl
  | cons m ms ih => simp [isCursorEvent, isOpenCursor, isCloseCursor, ih]

lemma table_trace_no_cursor (db : String → List (List Value))
    (c_stream : ConfiguredAirbyteStream) :
    ((table_trace db c_stream).all (fun e => !(isCursorEvent e))) = true := by
  simp [table_trace, isCursorEvent, isOpenCursor, isCloseCursor,
    all_map_emit_no_cursor, List.all_cons]

lemma bind_table_trace_no_cursor (db : String → List (List Value))
    (streams : List ConfiguredAirbyteStream) :
    ((streams.flatMap (table_trace db)).all (fun e => !(isCursorEvent e))) = true := by
  induction streams with
  | nil => rfl
  | cons s ss ih =>
    rw [List.flatMap_cons, List.all_append]
    simp [table_trace_no_cursor, ih]

lemma countP_cursor_eq_zero_of_no_cursor (l : List Event)
    (h : (l.all (fun e => !(isCursorEvent e))) = true) :
    l.countP isOpenCursor = 0 ∧ l.countP isCloseCursor = 0 := by
  rw [List.all_eq_true] at h
  constructor <;> rw [List.countP_eq_zero] <;> intro e he hpe
  · have hne := h e he
    cases e <;> simp_all [isCursorEvent, isOpenCursor, isCloseCursor]
  · have hne := h e he
    cases e <;> simp_all [isCursorEvent, isOpenCursor, isCloseCursor]

lemma cursorNesting_append_no_cursor (rest : List Event) :
    ∀ (tr : List Event) (n : Nat), (tr.all (fun e => !(isCursorEvent e))) = true →
      cursorNesting (tr ++ rest) n = cursorNesting rest n := by
  intro tr
  induction tr with
  | nil => intro n h; rfl
  | cons e tr ih =>
    intro n h
    rw [List.all_cons, Bool.and_eq_true] at h
    cases e
    case openCursor => simp [isCursorEvent, isOpenCursor] at h
    case closeCursor => simp [isCursorEvent, isCloseCursor] at h
    all_goals exact ih n h.2

lemma filterMap_fetchRowsOf_map_emit (msgs : List AirbyteRecordMessage) :
    (msgs.map Event.emit).filterMap fetchRowsOf = [] := by
  induction msgs with
  | nil => rfl
  | cons m ms ih => simp [fetchRowsOf, ih]

lemma filterMap_emitOf_map_emit (msgs : List AirbyteRecordMessage) :
    (msgs.map Event.emit).filterMap emitOf = msgs := by
  induction msgs with
  | nil => rfl
  | cons m ms ih => simp [emitOf, ih]

lemma filterMap_emitOf_comp (msgs : List AirbyteRecordMessage) :
    List.filterMap (emitOf ∘ Event.emit) msgs = msgs := by
  induction msgs with
  | nil => rfl
  | cons m ms ih => simp [emitOf, Function.comp, ih]

lemma table_trace_filterMap_fetch (db : String → List (List Value))
    (c_stream : ConfiguredAirbyteStream) :
    (table_trace db c_stream).filterMap fetchRowsOf = [db (queryOf c_stream)] := by
  simp [table_trace, fetchRowsOf, filterMap_fetchRowsOf_map_emit]

lemma table_trace_filterMap_emit (db : String → List (List Value))
    (c_stream : ConfiguredAirbyteStream) :
    (table_trace db c_stream).filterMap emitOf = emitted_messages db c_stream := by
  simp [table_trace, emitOf, filterMap_emitOf_comp]

lemma bind_filterMap_fetch (db : String → List (List Value))
    (streams : List ConfiguredAirbyteStream) :
    (streams.flatMap (table_trace db)).filterMap fetchRowsOf
      = streams.map (fun s => db (queryOf s)) := by
  induction streams with
  | nil => rfl
  | cons s ss ih =>
    rw [List.flatMap_cons, List.filterMap_append, table_trace_filterMap_fetch, ih]
    rfl

lemma bind_filterMap_emit (db : String → List (List Value))
    (streams : List ConfiguredAirbyteStream) :
    (streams.flatMap (table_trace db)).filterMap emitOf
      = streams.flatMap (fun s => emitted_messages db s) := by
  induction streams with
  | nil => rfl
  | cons s ss ih =>
    rw [List.flatMap_cons, List.filterMap_append, table_trace_filterMap_emit, ih, List.flatMap_cons]

/-- C1 counterexample: on a store whose table holds two rows, the `read` trace
contains a fetch event carrying both rows at once (`cursor.fetchall()`), so it
is false that every fetch pulls at most one row from the cursor. -/
theorem c1_counterexample :
    ¬ (((read_trace exDbTwoRows exCatalogUsers []).all
        (fun e => fetchSize e ≤ 1)) = true) := by
  decide

/-- C1 amended: for each selected table, `read` issues one query and fetches
the table's ENTIRE result set at once (exactly one fetch event per stream,
carrying all rows the store returns for that stream's query); it then invokes
the Record Normalizer on each fetched row in order and emits each yielded
envelope.  The coordinator therefore does materialize each table's result set
in memory before emitting. -/
theorem c1_amended (db : String → List (List Value)) (catalog : ConfiguredAirbyteCatalog)
    (state : List (String × Value)) :
    (read_trace db catalog state).filterMap fetchRowsOf
        = catalog.streams.map (fun s => db (queryOf s)) ∧
    (read_trace db catalog state).filterMap emitOf
        = catalog.streams.flatMap (fun s => emitted_messages db s) := by
  constructor
  · simp [read_trace, List.filterMap_append, fetchRowsOf, bind_filterMap_fetch]
  · simp [read_trace, List.filterMap_append, emitOf, bind_filterMap_emit]

/-- C2 counterexample: with two selected tables, the `read` trace opens only
one cursor in total, so it is false that a cursor is opened (and released)
per table. -/
theorem c2_counterexample :
    ¬ ((read_trace exDbTwoRows exCatalogTwoTables []).countP isOpenCursor
        = exCatalogTwoTables.streams.length) := by
  decide

/-- C2 amended: exactly one cursor is active at a time across the whole `read`
call, but it is a single cursor: it is opened once before the first table and
closed once after the last table, and is reused across tables rather than
opened and released per table. -/
theorem c2_amended (db : String → List (List Value)) (catalog : ConfiguredAirbyteCatalog)
    (state : List (String × Value)) :
    (read_trace db catalog state).countP isOpenCursor = 1 ∧
    (read_trace db catalog state).countP isCloseCursor = 1 ∧
    cursorNesting (read_trace db catalog state) 0 = true := by
  have hmid := bind_table_trace_no_cursor db catalog.streams
  obtain ⟨ho, hc⟩ := countP_cursor_eq_zero_of_no_cursor _ hmid
  refine ⟨?_, ?_, ?_⟩
  · simp [read_trace, List.countP_append, ho, List.countP_cons,
      isOpenCursor, isCloseCursor]
  · simp [read_trace, List.countP_append, hc, List.countP_cons,
      isOpenCursor, isCloseCursor]
  · rw [read_trace, List.append_assoc]
    show cursorNesting (catalog.streams.flatMap (table_trace db)
      ++ [Event.closeCursor, Event.closeConnection]) 1 = true
    rw [cursorNesting_append_no_cursor _ _ 1 hmid]
    rfl

/-- C7: the `state` argument of `read` is never consulted: for any two states,
the whole remote-interaction trace — and in particular the sequence of emitted
record envelopes — is identical. -/
theorem c7_state_ignored (db : String → List (List Value))
    (catalog : ConfiguredAirbyteCatalog) (s1 s2 : List (String × Value)) :
    read_trace db catalog s1 = read_trace db catalog s2 ∧
    (read_trace db catalog s1).filterMap emitOf
      = (read_trace db catalog s2).filterMap emitOf :=
  ⟨rfl, rfl⟩

/-- One row of the `SHOW COLUMNS {table}` result (source.py line 39): table
name, column name, native type tag, nullability. -/
structure ColumnRow where
  t_name : String
  c_name : String
  c_type : String
  nullable : Bool
deriving DecidableEq

/-- Python dict key membership on the insertion-ordered association list. -/
def containsKey (m : List (String × SchemaFragment)) (k : String) : Bool :=
  m.any (fun p => p.1 == k)

/-- Python dict assignment `column_mapping[c_name] = airbyte_type` on the
insertion-ordered association list: an existing key keeps its position and gets
the new value, a new key is appended at the end. -/
def dictInsert (m : List (String × SchemaFragment)) (k : String) (v : SchemaFragment) :
    List (String × SchemaFragment) :=
  if containsKey m k then m.map (fun p => if p.1 == k then (k, v) else p)
  else m ++ [(k, v)]

/-- The `column_mapping` dict built by `get_table_stream` (source.py lines
36-41): one dict assignment per fetched column row, in fetch order. -/
def column_mapping_of (rows : List ColumnRow) : List (String × SchemaFragment) :=
  rows.foldl (fun m r => dictInsert m r.c_name (convert_type r.c_type r.nullable)) []

/-- `get_table_stream` (source.py lines 28-47), value level.  `show_columns`
maps a table name to the outcome of executing `SHOW COLUMNS {table}` and
fetching its rows (`.error e` when the query or fetch raises).  On success the
stream is built from the column mapping; on failure the exception propagates. -/
def get_table_stream (show_columns : String → Except String (List ColumnRow))
    (table : String) : Except String AirbyteStream :=
  match show_columns table with
  | Except.error e => Except.error e
  | Except.ok rows =>
      Except.ok ⟨table, ⟨"object", column_mapping_of rows⟩, SUPPORTED_SYNC_MODES⟩

/-- `await gather(*[get_table_stream(connection, table) for table in tables])`
(source.py line 94): results are joined in input order; a failing task's
exception propagates out of `gather`, discarding every already-computed
result. -/
def gather_table_streams (show_columns : String → Except String (List ColumnRow)) :
    List String → Except String (List AirbyteStream)
  | [] => Except.ok []
  | t :: ts =>
    match get_table_stream show_columns t with
    | Except.error e => Except.error e
    | Except.ok s =>
      match gather_table_streams show_columns ts with
      | Except.error e => Except.error e
      | Except.ok ss => Except.ok (s :: ss)

/-- The remote store as seen by `discover`: the table list returned by
`get_firebolt_tables` and the per-table `SHOW COLUMNS` outcome. -/
structure DiscoverDb where
  tables : List String
  show_columns : String → Except String (List ColumnRow)

/-- `SourceFirebolt.discover` (source.py lines 72-99), value level: enumerate
the tables, then gather one `get_table_stream` task per table. -/
def discover_streams (db : DiscoverDb) : Except String (List AirbyteStream) :=
  gather_table_streams db.show_columns db.tables

/-- `establish_async_connection` opens exactly one session per `discover`
call; sessions are numbered, and the single session of the call is session 0. -/
def establish_async_connection_id : Nat := 0

/-- The argument pairs of the tasks spawned by `discover` (source.py line 94):
the comprehension `[get_table_stream(connection, table) for table in tables]`
passes the same `connection` object to every task.  Each pair is
(connection id, table name). -/
def discover_tasks (connection : Nat) (tables : List String) : List (Nat × String) :=
  tables.map (fun table => (connection, table))

/-- A remote-store interaction of `get_table_stream` during discovery. -/
inductive DiscEvent
  | openCursor
  | closeCursor
  | execute (query : String)
  | fetchAllCols (rows : List ColumnRow)
deriving DecidableEq

def isDiscOpenCursor : DiscEvent → Bool
  | DiscEvent.openCursor => true
  | _ => false

def isDiscCloseCursor : DiscEvent → Bool
  | DiscEvent.closeCursor => true
  | _ => false

/-- The event trace of one `get_table_stream` call (source.py lines 36-42):
`cursor = connection.cursor()` opens the cursor, the `SHOW COLUMNS` query runs
and its rows are fetched, and `cursor.close()` runs only as the last statement
of the success path — the function uses no `try/finally` and no `with`, so
when the query or the fetch raises, execution leaves the function before ever
reaching `cursor.close()`. -/
def get_table_stream_trace (show_columns : String → Except String (List ColumnRow))
    (table : String) : List DiscEvent :=
  match show_columns table with
  | Except.error _ =>
      [DiscEvent.openCursor, DiscEvent.execute ("SHOW COLUMNS " ++ table)]
  | Except.ok rows =>
      [DiscEvent.openCursor, DiscEvent.execute ("SHOW COLUMNS " ++ table),
        DiscEvent.fetchAllCols rows, DiscEvent.closeCursor]

lemma get_table_stream_trace_open_count
    (show_columns : String → Except String (List ColumnRow)) (table : String) :
    (get_table_stream_trace show_columns table).countP isDiscOpenCursor = 1 := by
  cases h : show_columns table <;>
    simp [get_table_stream_trace, h, List.countP_cons, isDiscOpenCursor]

lemma get_table_stream_trace_close_count
    (show_columns : String → Except String (List ColumnRow)) (table : String) :
    (get_table_stream_trace show_columns table).countP isDiscCloseCursor
      = cond (show_columns table).isOk 1 0 := by
  cases h : show_columns table <;>
    simp [get_table_stream_trace, h, List.countP_cons, isDiscCloseCursor, Except.isOk,
      Except.toBool]

/-- A `SHOW COLUMNS` executor that always fails (the query raises). -/
def exFailingColumns : String → Except String (List ColumnRow) :=
  fun _ => Except.error "connection reset"

/-- C4 counterexample: when the describe-columns query raises, the cursor
opened by `get_table_stream` is never closed (no `try/finally` around
`cursor.close()`), so it is false that every acquisition is matched by exactly
one close. -/
theorem c4_counterexample :
    ¬ ((get_table_stream_trace exFailingColumns "orders").countP isDiscCloseCursor = 1) := by
  decide

/-- C4 amended: each `get_table_stream` call opens exactly one cursor and
closes it exactly once on the success path, but when the describe-columns
query or fetch raises, the cursor is NOT closed (zero closes on the error
path). -/
theorem c4_amended (show_columns : String → Except String (List ColumnRow)) (table : String) :
    (get_table_stream_trace show_columns table).countP isDiscOpenCursor = 1 ∧
    (get_table_stream_trace show_columns table).countP isDiscCloseCursor
      = cond (show_columns table).isOk 1 0 :=
  ⟨get_table_stream_trace_open_count show_columns table,
    get_table_stream_trace_close_count show_columns table⟩

/-- C5 counterexample: with two enumerated tables, the two concurrent
per-table tasks are both handed the single session of the call, so it is false
that the task connections are pairwise distinct (one session per task). -/
theorem c5_counterexample :
    ¬ (((discover_tasks establish_async_connection_id ["users", "orders"]).map
        Prod.fst).Nodup) := by
  decide

lemma discover_tasks_conn_all (tables : List String) :
    ((discover_tasks establish_async_connection_id tables).map Prod.fst).all
      (fun c => c == establish_async_connection_id) = true := by
  induction tables with
  | nil => rfl
  | cons t ts ih => simp_all [discover_tasks]

lemma tasks_open_count_all (db : DiscoverDb) :
    (db.tables.map (fun t =>
        (get_table_stream_trace db.show_columns t).countP isDiscOpenCursor)).all
      (fun n => n == 1) = true := by
  rw [List.all_eq_true]
  intro n hn
  rw [List.mem_map] at hn
  rcases hn with ⟨t, ht, rfl⟩
  simp [get_table_stream_trace_open_count]

/-- C5 amended: the concurrent per-table metadata tasks of `discover` all
share the SINGLE async connection opened by the call (every task's connection
is that one session); each task opens its own cursor on the shared
connection. -/
theorem c5_amended (db : DiscoverDb) :
    ((discover_tasks establish_async_connection_id db.tables).map Prod.fst).all
      (fun c => c == establish_async_connection_id) = true ∧
    (db.tables.map (fun t =>
        (get_table_stream_trace db.show_columns t).countP isDiscOpenCursor)).all
      (fun n => n == 1) = true :=
  ⟨discover_tasks_conn_all db.tables, tasks_open_count_all db⟩

lemma get_table_stream_isOk (show_columns : String → Except String (List ColumnRow))
    (table : String) :
    (get_table_stream show_columns table).isOk = (show_columns table).isOk := by
  cases h : show_columns table <;> simp [get_table_stream, h, Except.isOk, Except.toBool]

lemma gather_isOk (show_columns : String → Except String (List ColumnRow))
    (l : List String) :
    (gather_table_streams show_columns l).isOk
      = l.all (fun t => (get_table_stream show_columns t).isOk) := by
  induction l with
  | nil => rfl
  | cons t ts ih =>
    have hcons : gather_table_streams show_columns (t :: ts)
        = match get_table_stream show_columns t with
          | Except.error e => Except.error e
          | Except.ok s =>
            match gather_table_streams show_columns ts with
            | Except.error e => Except.error e
            | Except.ok ss => Except.ok (s :: ss) := rfl
    rw [List.all_cons, ← ih, hcons]
    cases h : get_table_stream show_columns t with
    | error e => simp [Except.isOk, Except.toBool]
    | ok s =>
      cases h2 : gather_table_streams show_columns ts with
      | error e2 => simp [h2, Except.isOk, Except.toBool]
      | ok ss => simp [h2, Except.isOk, Except.toBool]

/-- C3: discovery is all-or-nothing: `discover` succeeds exactly when the
column-metadata query of every enumerated table succeeds; as soon as one
fails, the whole call yields an error and no catalog — in particular no
partial catalog containing the already-computed streams — is returned. -/
theorem c3_discover_all_or_nothing (db : DiscoverDb) :
    (discover_streams db).isOk = db.tables.all (fun t => (db.show_columns t).isOk) := by
  rw [discover_streams, gather_isOk]
  have hf : (fun t => (get_table_stream db.show_columns t).isOk)
      = fun t => (db.show_columns t).isOk :=
    funext (fun t => get_table_stream_isOk db.show_columns t)
  rw [hf]

lemma get_table_stream_name (show_columns : String → Except String (List ColumnRow))
    (table : String) (s : AirbyteStream)
    (h : get_table_stream show_columns table = Except.ok s) : s.name = table := by
  cases hc : show_columns table <;> simp only [get_table_stream, hc] at h
  · exact Except.noConfusion h
  · rw [Except.ok.injEq] at h
    subst h
    rfl

lemma gather_names (show_columns : String → Except String (List ColumnRow)) :
    ∀ (l : List String) (streams : List AirbyteStream),
      gather_table_streams show_columns l = Except.ok streams →
      streams.map AirbyteStream.name = l := by
  intro l
  induction l with
  | nil =>
    intro streams h
    simp only [gather_table_streams, Except.ok.injEq] at h
    subst h
    rfl
  | cons t ts ih =>
    intro streams h
    simp only [gather_table_streams] at h
    cases h1 : get_table_stream show_columns t with
    | error e => rw [h1] at h; exact Except.noConfusion h
    | ok s =>
      rw [h1] at h
      cases h2 : gather_table_streams show_columns ts with
      | error e2 => rw [h2] at h; exact Except.noConfusion h
      | ok ss =>
        rw [h2, Except.ok.injEq] at h
        subst h
        rw [List.map_cons, get_table_stream_name show_columns t s h1, ih ss h2]

/-- C10: when `discover` succeeds, the returned catalog has exactly one stream
per enumerated table, named after it and listed in the order the
table-enumeration returned the names (the gather joins its results in input
order). -/
theorem c10_streams_in_table_order (db : DiscoverDb) (streams : List AirbyteStream)
    (h : discover_streams db = Except.ok streams) :
    streams.map AirbyteStream.name = db.tables ∧ streams.length = db.tables.length := by
  have hn := gather_names db.show_columns db.tables streams h
  refine ⟨hn, ?_⟩
  rw [← hn, List.length_map]

/-- A healthy `SHOW COLUMNS` executor: every table has one `id: int` column. -/
def exColumnsOk : String → Except String (List ColumnRow) :=
  fun t => Except.ok [⟨t, "id", "int", false⟩]

def exDiscoverDb : DiscoverDb := ⟨["users", "orders"], exColumnsOk⟩

def exStreamsOut : List AirbyteStream :=
  [⟨"users", ⟨"object", [("id", ⟨NormalizedType.integer, false⟩)]⟩, SUPPORTED_SYNC_MODES⟩,
    ⟨"orders", ⟨"object", [("id", ⟨NormalizedType.integer, false⟩)]⟩, SUPPORTED_SYNC_MODES⟩]

/-- C10 witness: a concrete two-table discovery succeeds with one stream per
table in enumeration order. -/
theorem c10_witness :
    discover_streams exDiscoverDb = Except.ok exStreamsOut ∧
    exStreamsOut.map AirbyteStream.name = exDiscoverDb.tables := by
  have h : discover_streams exDiscoverDb = Except.ok exStreamsOut := by rfl
  exact ⟨h, (c10_streams_in_table_order exDiscoverDb exStreamsOut h).1⟩

lemma containsKey_append_single (m : List (String × SchemaFragment))
    (k k2 : String) (v : SchemaFragment) :
    containsKey (m ++ [(k, v)]) k2 = (containsKey m k2 || (k == k2)) := by
  simp [containsKey, List.any_append]

lemma column_mapping_foldl (rows : List ColumnRow) :
    ∀ (m : List (String × SchemaFragment)),
      (rows.map ColumnRow.c_name).Nodup →
      (∀ r ∈ rows, containsKey m r.c_name = false) →
      (rows.foldl (fun m r => dictInsert m r.c_name (convert_type r.c_type r.nullable)) m).map
          Prod.fst
        = m.map Prod.fst ++ rows.map ColumnRow.c_name := by
  induction rows with
  | nil => intro m _ _; simp
  | cons r rest ih =>
    intro m hnd hfresh
    rw [List.map_cons, List.nodup_cons] at hnd
    rw [List.foldl_cons]
    have hr : containsKey m r.c_name = false := hfresh r (List.mem_cons_self r rest)
    have hins : dictInsert m r.c_name (convert_type r.c_type r.nullable)
        = m ++ [(r.c_name, convert_type r.c_type r.nullable)] := by
      simp [dictInsert, hr]
    rw [hins]
    have hfresh2 : ∀ r2 ∈ rest,
        containsKey (m ++ [(r.c_name, convert_type r.c_type r.nullable)]) r2.c_name = false := by
      intro r2 hr2
      rw [containsKey_append_single]
      have h1 : containsKey m r2.c_name = false := hfresh r2 (List.mem_cons_of_mem r hr2)
      have h2 : (r.c_name == r2.c_name) = false := by
        rw [beq_eq_false_iff_ne]
        intro hEq
        exact hnd.1 (by rw [hEq]; exact List.mem_map_of_mem ColumnRow.c_name hr2)
      rw [h1, h2]
      rfl
    rw [ih (m ++ [(r.c_name, convert_type r.c_type r.nullable)]) hnd.2 hfresh2]
    simp [List.map_append]

/-- C9: the `properties` mapping of a discovered table schema lists the
columns in exactly the order the `SHOW COLUMNS` query returned them (Python
dict insertion order), given the store-guaranteed uniqueness of column names
within a table. -/
theorem c9_column_order_preserved (rows : List ColumnRow)
    (h : (rows.map ColumnRow.c_name).Nodup) :
    (column_mapping_of rows).map Prod.fst = rows.map ColumnRow.c_name := by
  have hx := column_mapping_foldl rows [] h (fun r _ => rfl)
  simpa [column_mapping_of] using hx

def exColumnRows : List ColumnRow :=
  [⟨"users", "id", "int", false⟩, ⟨"users", "name", "text", true⟩]

/-- C9 witness: a concrete two-column table keeps the query order `id, name`
in its schema properties. -/
theorem c9_witness :
    (exColumnRows.map ColumnRow.c_name).Nodup ∧
    (column_mapping_of exColumnRows).map Prod.fst = exColumnRows.map ColumnRow.c_name :=
  ⟨by decide, c9_column_order_preserved exColumnRows (by decide)⟩

end Firebolt
